import Mathlib

/-!
Shallow embedding of the Savari ticketing backend (Convex mutations and
queries) and proofs of the spec's testable properties.

Tables are Lean lists in insertion order; Convex's `.first()` over an
equality index scan is `List.find?` (documents with equal index keys are
returned in creation order, which coincides with insertion order here).
Document ids are `Nat`s drawn from a `nextId` counter.  `Date.now()` is an
explicit `now : Nat` argument, and the random tokens produced by `nanoid`
are explicit string arguments.  A JavaScript truthiness test on an optional
numeric field (`if (invite.usedAt)`, `!p.archivedAt`) is `numTruthy`:
`undefined` and `0` are falsy, every other number is truthy.
-/

namespace Savari

/-- Decidable equality for `Except` results, used to evaluate the mutations on
concrete inputs. -/
instance exceptDecEq {e a : Type} [DecidableEq e] [DecidableEq a] :
    DecidableEq (Except e a) := fun x y =>
  match x, y with
  | .ok v, .ok w =>
    if h : v = w then isTrue (congrArg Except.ok h)
    else isFalse (fun hc => h (Except.ok.inj hc))
  | .error v, .error w =>
    if h : v = w then isTrue (congrArg Except.error h)
    else isFalse (fun hc => h (Except.error.inj hc))
  | .ok _, .error _ => isFalse (fun hc => Except.noConfusion hc)
  | .error _, .ok _ => isFalse (fun hc => Except.noConfusion hc)

/-- Trip lifecycle status stored on a `tripSessions` row. -/
inductive TripStatus
  | active
  | completed
deriving DecidableEq, Repr

/-- Role stored on a `members` row. -/
inductive Role
  | operator
  | driver
  | business
deriving DecidableEq, Repr

/-- Role an invite can carry (`v.union(v.literal("driver"), v.literal("business"))`). -/
inductive InviteRole
  | driver
  | business
deriving DecidableEq, Repr

/-- Embedding of an invite role into a member role, as used by `acceptInvite`. -/
def InviteRole.toRole : InviteRole → Role
  | .driver => .driver
  | .business => .business

/-- An authenticated user as returned by `authComponent.getAuthUser`. -/
structure User where
  id : String
  email : String
  name : Option String
deriving DecidableEq, Repr

/-- JS truthiness of an optional numeric field: `undefined` and `0` are falsy. -/
def numTruthy : Option Nat → Bool
  | none => false
  | some n => n != 0

/-- JS `user.name || user.email` (the empty string is falsy). -/
def nameOrEmail (u : User) : String :=
  match u.name with
  | none => u.email
  | some n => if n = "" then u.email else n

/-- A row of the `operators` table. -/
structure Operator where
  id : Nat
  name : String
  slug : String
  ownerId : String
  createdAt : Nat
deriving DecidableEq, Repr

/-- A row of the `members` table. -/
structure Member where
  id : Nat
  operatorId : Nat
  userId : String
  role : Role
  email : String
  name : String
  createdAt : Nat
deriving DecidableEq, Repr

/-- A row of the `routes` table. -/
structure Route where
  id : Nat
  operatorId : Nat
  name : String
  description : Option String
  isActive : Bool
  createdAt : Nat
deriving DecidableEq, Repr

/-- A row of the `passengers` table. -/
structure Passenger where
  id : Nat
  operatorId : Nat
  businessId : String
  name : String
  email : String
  qrCode : String
  createdAt : Nat
  archivedAt : Option Nat
deriving DecidableEq, Repr

/-- A row of the `tripSessions` table. -/
structure TripSession where
  id : Nat
  operatorId : Nat
  routeId : Nat
  driverId : String
  startedAt : Nat
  endedAt : Option Nat
  status : TripStatus
deriving DecidableEq, Repr

/-- A row of the `scans` table. -/
structure Scan where
  id : Nat
  operatorId : Nat
  tripSessionId : Nat
  passengerId : Nat
  scannedAt : Nat
  scannedBy : String
deriving DecidableEq, Repr

/-- A row of the `invites` table. -/
structure Invite where
  id : Nat
  operatorId : Nat
  email : String
  role : InviteRole
  token : String
  createdAt : Nat
  expiresAt : Nat
  usedAt : Option Nat
deriving DecidableEq, Repr

/-- The whole document store: the seven tables of `schema.ts` plus the id counter. -/
structure DB where
  operators : List Operator
  members : List Member
  routes : List Route
  passengers : List Passenger
  tripSessions : List TripSession
  scans : List Scan
  invites : List Invite
  nextId : Nat
deriving DecidableEq, Repr

/-- `ctx.db.get` on `routes`. -/
def DB.getRoute (db : DB) (id : Nat) : Option Route :=
  db.routes.find? (fun r => r.id == id)

/-- `ctx.db.get` on `tripSessions`. -/
def DB.getTrip (db : DB) (id : Nat) : Option TripSession :=
  db.tripSessions.find? (fun t => t.id == id)

/-- `ctx.db.get` on `passengers`. -/
def DB.getPassenger (db : DB) (id : Nat) : Option Passenger :=
  db.passengers.find? (fun p => p.id == id)

/-- `ctx.db.get` on `operators`. -/
def DB.getOperator (db : DB) (id : Nat) : Option Operator :=
  db.operators.find? (fun o => o.id == id)

/-- `ctx.db.get` on `members`. -/
def DB.getMember (db : DB) (id : Nat) : Option Member :=
  db.members.find? (fun m => m.id == id)

/-- `ctx.db.get` on `invites`. -/
def DB.getInvite (db : DB) (id : Nat) : Option Invite :=
  db.invites.find? (fun i => i.id == id)

/-- `.withIndex("by_user", q.eq("userId", u)).first()` on `members`. -/
def DB.memberByUser (db : DB) (userId : String) : Option Member :=
  db.members.find? (fun m => m.userId == userId)

/-- `.withIndex("by_operator_user", ...).first()` on `members`. -/
def DB.memberByOperatorUser (db : DB) (operatorId : Nat) (userId : String) : Option Member :=
  db.members.find? (fun m => m.operatorId == operatorId && m.userId == userId)

/-- `.withIndex("by_slug", ...).first()` on `operators`. -/
def DB.operatorBySlug (db : DB) (slug : String) : Option Operator :=
  db.operators.find? (fun o => o.slug == slug)

/-- `.withIndex("by_owner", ...).first()` on `operators`. -/
def DB.operatorByOwner (db : DB) (ownerId : String) : Option Operator :=
  db.operators.find? (fun o => o.ownerId == ownerId)

/-- `.withIndex("by_qr", ...).first()` on `passengers`. -/
def DB.passengerByQr (db : DB) (qrCode : String) : Option Passenger :=
  db.passengers.find? (fun p => p.qrCode == qrCode)

/-- `.withIndex("by_driver_status", q.eq("driverId", d).eq("status", "active")).first()`. -/
def DB.activeTripByDriver (db : DB) (driverId : String) : Option TripSession :=
  db.tripSessions.find? (fun t => t.driverId == driverId && t.status == TripStatus.active)

/-- `.withIndex("by_token", ...).first()` on `invites`. -/
def DB.inviteByToken (db : DB) (token : String) : Option Invite :=
  db.invites.find? (fun i => i.token == token)

/-- `.withIndex("by_trip", q.eq tid).filter(q.eq passengerId pid).first()` on `scans`. -/
def DB.scanByTripPassenger (db : DB) (tripSessionId passengerId : Nat) : Option Scan :=
  db.scans.find? (fun s => s.tripSessionId == tripSessionId && s.passengerId == passengerId)

/-- `ctx.db.patch` on `tripSessions`. -/
def DB.patchTrip (db : DB) (id : Nat) (f : TripSession → TripSession) : DB :=
  { db with tripSessions := db.tripSessions.map (fun t => if t.id = id then f t else t) }

/-- `ctx.db.patch` on `passengers`. -/
def DB.patchPassenger (db : DB) (id : Nat) (f : Passenger → Passenger) : DB :=
  { db with passengers := db.passengers.map (fun p => if p.id = id then f p else p) }

/-- `ctx.db.patch` on `invites`. -/
def DB.patchInvite (db : DB) (id : Nat) (f : Invite → Invite) : DB :=
  { db with invites := db.invites.map (fun i => if i.id = id then f i else i) }

/-- `ctx.db.patch` on `routes`. -/
def DB.patchRoute (db : DB) (id : Nat) (f : Route → Route) : DB :=
  { db with routes := db.routes.map (fun r => if r.id = id then f r else r) }

/-- `ctx.db.delete` on `members`. -/
def DB.deleteMemberRow (db : DB) (id : Nat) : DB :=
  { db with members := db.members.filter (fun m => m.id != id) }

/-- `ctx.db.delete` on `invites`. -/
def DB.deleteInviteRow (db : DB) (id : Nat) : DB :=
  { db with invites := db.invites.filter (fun i => i.id != id) }

/-- `ctx.db.delete` on `routes`. -/
def DB.deleteRouteRow (db : DB) (id : Nat) : DB :=
  { db with routes := db.routes.filter (fun r => r.id != id) }

/-- `requireDriverRole` from `convex/trips.ts`. -/
def requireDriverRole (auth : Option User) (db : DB) : Except String (User × Member) :=
  match auth with
  | none => .error "Not authenticated"
  | some user =>
    match db.memberByUser user.id with
    | none => .error "Only drivers can perform this action"
    | some membership =>
      if membership.role = Role.driver then .ok (user, membership)
      else .error "Only drivers can perform this action"

/-- `requireBusinessRole` from `convex/passengers.ts`. -/
def requireBusinessRole (auth : Option User) (db : DB) : Except String (User × Member) :=
  match auth with
  | none => .error "Not authenticated"
  | some user =>
    match db.memberByUser user.id with
    | none => .error "Only businesses can perform this action"
    | some membership =>
      if membership.role = Role.business then .ok (user, membership)
      else .error "Only businesses can perform this action"

/-- `requireOperatorRole` from `convex/members.ts` / `convex/routes.ts`. -/
def requireOperatorRole (auth : Option User) (db : DB) : Except String (User × Member) :=
  match auth with
  | none => .error "Not authenticated"
  | some user =>
    match db.memberByUser user.id with
    | none => .error "Only operators can perform this action"
    | some membership =>
      if membership.role = Role.operator then .ok (user, membership)
      else .error "Only operators can perform this action"

/-- `requireMembership` from `convex/passengers.ts` / `convex/routes.ts`. -/
def requireMembership (auth : Option User) (db : DB) (operatorId : Nat) :
    Except String (User × Member) :=
  match auth with
  | none => .error "Not authenticated"
  | some user =>
    match db.memberByOperatorUser operatorId user.id with
    | none => .error "Not a member of this operator"
    | some membership => .ok (user, membership)

namespace Operators

/-- `operators.create`: checks slug uniqueness and that the caller does not already
own an operator, then inserts the operator row and the founding member row and
returns the new operator id. -/
def create (auth : Option User) (now : Nat) (db : DB) (name slug : String) :
    Except String (DB × Nat) :=
  match auth with
  | none => .error "Not authenticated"
  | some user =>
    match db.operatorBySlug slug with
    | some _ => .error "Slug already taken"
    | none =>
      match db.operatorByOwner user.id with
      | some _ => .error "You already own an operator"
      | none =>
        let operatorId := db.nextId
        .ok ({ db with
                operators := db.operators ++
                  [{ id := operatorId, name := name, slug := slug,
                     ownerId := user.id, createdAt := now }],
                members := db.members ++
                  [{ id := db.nextId + 1, operatorId := operatorId, userId := user.id,
                     role := Role.operator, email := user.email,
                     name := nameOrEmail user, createdAt := now }],
                nextId := db.nextId + 2 }, operatorId)

end Operators

namespace Members

/-- `members.createInvite` (the `nanoid(32)` token is the explicit `token` argument;
the invite email is scheduled outside the transaction and not part of the state). -/
def createInvite (auth : Option User) (now : Nat) (token : String) (db : DB)
    (operatorId : Nat) (email : String) (role : InviteRole) :
    Except String (DB × Nat × String) :=
  match requireOperatorRole auth db with
  | .error e => .error e
  | .ok (_, membership) =>
    if membership.operatorId ≠ operatorId then
      .error "Cannot invite to a different operator"
    else
      match db.getOperator operatorId with
      | none => .error "Operator not found"
      | some _ =>
        let inviteId := db.nextId
        .ok ({ db with
                invites := db.invites ++
                  [{ id := inviteId, operatorId := operatorId, email := email,
                     role := role, token := token, createdAt := now,
                     expiresAt := now + 7 * 24 * 60 * 60 * 1000, usedAt := none }],
                nextId := db.nextId + 1 }, inviteId, token)

/-- `members.acceptInvite`: looks up the invite by token, rejects missing, used
(JS-truthy `usedAt`) or expired invites and callers who already have a member row,
then inserts the member row and marks the invite used, returning the operator id. -/
def acceptInvite (auth : Option User) (now : Nat) (db : DB) (token : String) :
    Except String (DB × Nat) :=
  match auth with
  | none => .error "Not authenticated"
  | some user =>
    match db.inviteByToken token with
    | none => .error "Invalid invite"
    | some invite =>
      if numTruthy invite.usedAt then .error "Invite already used"
      else if invite.expiresAt < now then .error "Invite expired"
      else
        match db.memberByUser user.id with
        | some _ => .error "You are already a member of an operator"
        | none =>
          let db1 : DB := { db with
                        members := db.members ++
                          [{ id := db.nextId, operatorId := invite.operatorId,
                             userId := user.id, role := invite.role.toRole,
                             email := user.email, name := nameOrEmail user,
                             createdAt := now }],
                        nextId := db.nextId + 1 }
          .ok (db1.patchInvite invite.id (fun i => { i with usedAt := some now }),
               invite.operatorId)

/-- `members.removeMember`. -/
def removeMember (auth : Option User) (db : DB) (memberId : Nat) : Except String DB :=
  match requireOperatorRole auth db with
  | .error e => .error e
  | .ok (_, membership) =>
    match db.getMember memberId with
    | none => .error "Member not found"
    | some targetMember =>
      if targetMember.operatorId ≠ membership.operatorId then
        .error "Cannot remove member from a different operator"
      else if targetMember.role = Role.operator then
        .error "Cannot remove the operator"
      else .ok (db.deleteMemberRow memberId)

/-- `members.deleteInvite`. -/
def deleteInvite (auth : Option User) (db : DB) (inviteId : Nat) : Except String DB :=
  match requireOperatorRole auth db with
  | .error e => .error e
  | .ok (_, membership) =>
    match db.getInvite inviteId with
    | none => .error "Invite not found"
    | some invite =>
      if invite.operatorId ≠ membership.operatorId then
        .error "Cannot delete invite from a different operator"
      else .ok (db.deleteInviteRow inviteId)

end Members

namespace Routes

/-- `routes.create`. -/
def create (auth : Option User) (now : Nat) (db : DB) (operatorId : Nat)
    (name : String) (description : Option String) : Except String (DB × Nat) :=
  match requireOperatorRole auth db with
  | .error e => .error e
  | .ok (_, membership) =>
    if membership.operatorId ≠ operatorId then
      .error "Cannot create route for a different operator"
    else
      let routeId := db.nextId
      .ok ({ db with
              routes := db.routes ++
                [{ id := routeId, operatorId := operatorId, name := name,
                   description := description, isActive := true, createdAt := now }],
              nextId := db.nextId + 1 }, routeId)

/-- `routes.update`: `undefined` arguments are filtered out of the patch, so a
`none` argument keeps the stored field. -/
def update (auth : Option User) (db : DB) (routeId : Nat)
    (name description : Option String) (isActive : Option Bool) : Except String DB :=
  match requireOperatorRole auth db with
  | .error e => .error e
  | .ok (_, membership) =>
    match db.getRoute routeId with
    | none => .error "Route not found"
    | some route =>
      if route.operatorId ≠ membership.operatorId then
        .error "Cannot update route for a different operator"
      else
        .ok (db.patchRoute routeId (fun r =>
          { r with
              name := name.getD r.name,
              description := match description with
                             | some d => some d
                             | none => r.description,
              isActive := isActive.getD r.isActive }))

/-- `routes.remove`. -/
def remove (auth : Option User) (db : DB) (routeId : Nat) : Except String DB :=
  match requireOperatorRole auth db with
  | .error e => .error e
  | .ok (_, membership) =>
    match db.getRoute routeId with
    | none => .error "Route not found"
    | some route =>
      if route.operatorId ≠ membership.operatorId then
        .error "Cannot delete route for a different operator"
      else .ok (db.deleteRouteRow routeId)

end Routes

namespace Passengers

/-- `passengers.create` (the `nanoid(12)` part of the QR code is the explicit
`qrSuffix` argument; the ticket email is scheduled outside the state). -/
def create (auth : Option User) (now : Nat) (qrSuffix : String) (db : DB)
    (operatorId : Nat) (name email : String) : Except String (DB × Nat) :=
  match requireBusinessRole auth db with
  | .error e => .error e
  | .ok (user, membership) =>
    if membership.operatorId ≠ operatorId then
      .error "Cannot add passenger to a different operator"
    else
      match db.getOperator operatorId with
      | none => .error "Operator not found"
      | some _ =>
        let qrCode := "SAVARI-" ++ qrSuffix
        let passengerId := db.nextId
        .ok ({ db with
                passengers := db.passengers ++
                  [{ id := passengerId, operatorId := operatorId, businessId := user.id,
                     name := name, email := email, qrCode := qrCode,
                     createdAt := now, archivedAt := none }],
                nextId := db.nextId + 1 }, passengerId)

/-- Cursor-based pagination arguments (`paginationOpts`); Convex's opaque string
cursor is modelled as a position into the index scan. -/
structure PaginationOpts where
  cursor : Option Nat
  numItems : Nat
deriving DecidableEq, Repr

/-- The result of a paginated passenger query. -/
structure PassengerPage where
  page : List Passenger
  isDone : Bool
  continueCursor : Nat
deriving DecidableEq, Repr

/-- Platform-provided `query.paginate`, modelled as a positional slice of the
index scan. -/
def paginate (l : List Passenger) (opts : PaginationOpts) : PassengerPage :=
  let start := opts.cursor.getD 0
  { page := (l.drop start).take opts.numItems,
    isDone := l.length ≤ start + opts.numItems,
    continueCursor := start + opts.numItems }

/-- `passengers.list`: business members see only their own passengers, others the
whole operator; the page is then filtered by `!p.archivedAt` (JS truthiness)
unless `includeArchived` is truthy. -/
def list (auth : Option User) (db : DB) (operatorId : Nat)
    (paginationOpts : PaginationOpts) (includeArchived : Option Bool) :
    Except String PassengerPage :=
  match requireMembership auth db operatorId with
  | .error e => .error e
  | .ok (user, membership) =>
    let indexed :=
      if membership.role = Role.business then
        db.passengers.filter (fun p => p.operatorId == operatorId && p.businessId == user.id)
      else
        db.passengers.filter (fun p => p.operatorId == operatorId)
    let results := paginate indexed paginationOpts
    let filteredPage :=
      if includeArchived.getD false then results.page
      else results.page.filter (fun p => !(numTruthy p.archivedAt))
    .ok { results with page := filteredPage }

/-- `passengers.getByQrCode`: a bare index lookup with no authentication,
membership or tenant check and no failure path. -/
def getByQrCode (auth : Option User) (db : DB) (qrCode : String) :
    Except String (Option Passenger) :=
  .ok (db.passengerByQr qrCode)

/-- `passengers.update`: `undefined` arguments are filtered out of the patch. -/
def update (auth : Option User) (db : DB) (passengerId : Nat)
    (name email : Option String) : Except String DB :=
  match requireBusinessRole auth db with
  | .error e => .error e
  | .ok (user, _) =>
    match db.getPassenger passengerId with
    | none => .error "Passenger not found"
    | some passenger =>
      if passenger.businessId ≠ user.id then
        .error "Cannot update another business's passenger"
      else
        .ok (db.patchPassenger passengerId (fun p =>
          { p with name := name.getD p.name, email := email.getD p.email }))

/-- `passengers.archive`: patches `archivedAt` to the current time unconditionally. -/
def archive (auth : Option User) (now : Nat) (db : DB) (passengerId : Nat) :
    Except String DB :=
  match requireBusinessRole auth db with
  | .error e => .error e
  | .ok (user, _) =>
    match db.getPassenger passengerId with
    | none => .error "Passenger not found"
    | some passenger =>
      if passenger.businessId ≠ user.id then
        .error "Cannot archive another business's passenger"
      else .ok (db.patchPassenger passengerId (fun p => { p with archivedAt := some now }))

/-- `passengers.resendTicketEmail`: performs its checks and schedules an email;
it writes nothing to the store. -/
def resendTicketEmail (auth : Option User) (db : DB) (passengerId : Nat) :
    Except String DB :=
  match requireBusinessRole auth db with
  | .error e => .error e
  | .ok (user, _) =>
    match db.getPassenger passengerId with
    | none => .error "Passenger not found"
    | some passenger =>
      if passenger.businessId ≠ user.id then
        .error "Cannot resend email for another business's passenger"
      else
        match db.getOperator passenger.operatorId with
        | none => .error "Operator not found"
        | some _ => .ok db

end Passengers

namespace Trips

/-- Result status of `scanPassenger`. -/
inductive ScanStatus
  | success
  | already_scanned
deriving DecidableEq, Repr

/-- The non-error result of `scanPassenger`: the passenger record plus a status flag. -/
structure ScanOutcome where
  passenger : Passenger
  status : ScanStatus
deriving DecidableEq, Repr

/-- `trips.startTrip`: requires the driver role, an existing same-operator route,
and no active trip for the driver; then inserts a fresh active trip session and
returns its id. -/
def startTrip (auth : Option User) (now : Nat) (db : DB) (routeId : Nat) :
    Except String (DB × Nat) :=
  match requireDriverRole auth db with
  | .error e => .error e
  | .ok (user, membership) =>
    match db.getRoute routeId with
    | none => .error "Route not found"
    | some route =>
      if route.operatorId ≠ membership.operatorId then
        .error "Cannot start trip for a different operator's route"
      else
        match db.activeTripByDriver user.id with
        | some _ => .error "You already have an active trip. End it first."
        | none =>
          let tripId := db.nextId
          .ok ({ db with
                  tripSessions := db.tripSessions ++
                    [{ id := tripId, operatorId := membership.operatorId,
                       routeId := routeId, driverId := user.id,
                       startedAt := now, endedAt := none,
                       status := TripStatus.active }],
                  nextId := db.nextId + 1 }, tripId)

/-- `trips.endTrip`: only the owning driver may end a trip, only while it is
active; the patch sets `status=completed` and `endedAt=now`. -/
def endTrip (auth : Option User) (now : Nat) (db : DB) (tripSessionId : Nat) :
    Except String DB :=
  match requireDriverRole auth db with
  | .error e => .error e
  | .ok (user, _) =>
    match db.getTrip tripSessionId with
    | none => .error "Trip not found"
    | some trip =>
      if trip.driverId ≠ user.id then .error "Cannot end another driver's trip"
      else if trip.status ≠ TripStatus.active then .error "Trip is not active"
      else
        .ok (db.patchTrip tripSessionId (fun t =>
          { t with status := TripStatus.completed, endedAt := some now }))

/-- `trips.scanPassenger`: driver/ownership/active checks, passenger lookup by QR
code, tenant check, then the duplicate-scan check; a duplicate returns
`already_scanned` without writing, otherwise a scan row is inserted and the call
returns `success`. -/
def scanPassenger (auth : Option User) (now : Nat) (db : DB)
    (tripSessionId : Nat) (qrCode : String) : Except String (DB × ScanOutcome) :=
  match requireDriverRole auth db with
  | .error e => .error e
  | .ok (user, membership) =>
    match db.getTrip tripSessionId with
    | none => .error "Trip not found"
    | some trip =>
      if trip.driverId ≠ user.id then .error "Cannot scan for another driver's trip"
      else if trip.status ≠ TripStatus.active then .error "Trip is not active"
      else
        match db.passengerByQr qrCode with
        | none => .error "Invalid QR code"
        | some passenger =>
          if passenger.operatorId ≠ membership.operatorId then
            .error "Passenger belongs to a different operator"
          else
            match db.scanByTripPassenger tripSessionId passenger.id with
            | some _ => .ok (db, ⟨passenger, ScanStatus.already_scanned⟩)
            | none =>
              .ok ({ db with
                      scans := db.scans ++
                        [{ id := db.nextId, operatorId := membership.operatorId,
                           tripSessionId := tripSessionId, passengerId := passenger.id,
                           scannedAt := now, scannedBy := user.id }],
                      nextId := db.nextId + 1 },
                   ⟨passenger, ScanStatus.success⟩)

end Trips

/-- One invocation of any public mutation of the backend, with its caller,
clock reading and random tokens as explicit data.  Queries read but never
write, so they do not appear. -/
inductive Action
  | createOperator (auth : Option User) (now : Nat) (name slug : String)
  | createInvite (auth : Option User) (now : Nat) (token : String) (operatorId : Nat)
      (email : String) (role : InviteRole)
  | acceptInvite (auth : Option User) (now : Nat) (token : String)
  | removeMember (auth : Option User) (memberId : Nat)
  | deleteInvite (auth : Option User) (inviteId : Nat)
  | createRoute (auth : Option User) (now : Nat) (operatorId : Nat) (name : String)
      (description : Option String)
  | updateRoute (auth : Option User) (routeId : Nat) (name description : Option String)
      (isActive : Option Bool)
  | removeRoute (auth : Option User) (routeId : Nat)
  | createPassenger (auth : Option User) (now : Nat) (qrSuffix : String) (operatorId : Nat)
      (name email : String)
  | updatePassenger (auth : Option User) (passengerId : Nat) (name email : Option String)
  | archivePassenger (auth : Option User) (now : Nat) (passengerId : Nat)
  | resendTicketEmail (auth : Option User) (passengerId : Nat)
  | startTrip (auth : Option User) (now : Nat) (routeId : Nat)
  | endTrip (auth : Option User) (now : Nat) (tripSessionId : Nat)
  | scanPassenger (auth : Option User) (now : Nat) (tripSessionId : Nat) (qrCode : String)

/-- Run one mutation against the store.  Every Convex mutation is a single
serializable transaction: a thrown error rolls the whole call back, so an
`error` result leaves the store exactly as it was. -/
def applyAction (db : DB) (a : Action) : DB :=
  match a with
  | .createOperator auth now name slug =>
    match Operators.create auth now db name slug with
    | .ok (db', _) => db'
    | .error _ => db
  | .createInvite auth now token operatorId email role =>
    match Members.createInvite auth now token db operatorId email role with
    | .ok (db', _) => db'
    | .error _ => db
  | .acceptInvite auth now token =>
    match Members.acceptInvite auth now db token with
    | .ok (db', _) => db'
    | .error _ => db
  | .removeMember auth memberId =>
    match Members.removeMember auth db memberId with
    | .ok db' => db'
    | .error _ => db
  | .deleteInvite auth inviteId =>
    match Members.deleteInvite auth db inviteId with
    | .ok db' => db'
    | .error _ => db
  | .createRoute auth now operatorId name description =>
    match Routes.create auth now db operatorId name description with
    | .ok (db', _) => db'
    | .error _ => db
  | .updateRoute auth routeId name description isActive =>
    match Routes.update auth db routeId name description isActive with
    | .ok db' => db'
    | .error _ => db
  | .removeRoute auth routeId =>
    match Routes.remove auth db routeId with
    | .ok db' => db'
    | .error _ => db
  | .createPassenger auth now qrSuffix operatorId name email =>
    match Passengers.create auth now qrSuffix db operatorId name email with
    | .ok (db', _) => db'
    | .error _ => db
  | .updatePassenger auth passengerId name email =>
    match Passengers.update auth db passengerId name email with
    | .ok db' => db'
    | .error _ => db
  | .archivePassenger auth now passengerId =>
    match Passengers.archive auth now db passengerId with
    | .ok db' => db'
    | .error _ => db
  | .resendTicketEmail auth passengerId =>
    match Passengers.resendTicketEmail auth db passengerId with
    | .ok db' => db'
    | .error _ => db
  | .startTrip auth now routeId =>
    match Trips.startTrip auth now db routeId with
    | .ok (db', _) => db'
    | .error _ => db
  | .endTrip auth now tripSessionId =>
    match Trips.endTrip auth now db tripSessionId with
    | .ok db' => db'
    | .error _ => db
  | .scanPassenger auth now tripSessionId qrCode =>
    match Trips.scanPassenger auth now db tripSessionId qrCode with
    | .ok (db', _) => db'
    | .error _ => db

/-- The store a fresh deployment starts from: all seven tables empty. -/
def emptyDB : DB :=
  { operators := [], members := [], routes := [], passengers := [],
    tripSessions := [], scans := [], invites := [], nextId := 0 }

/-- The states of the store reachable from a fresh deployment by running
mutations. -/
inductive Reachable : DB → Prop
  | init : Reachable emptyDB
  | step {db : DB} (a : Action) : Reachable db → Reachable (applyAction db a)

/-- The §3 `TripSession` invariant: no two trip-session rows are simultaneously
`active` for the same driver. -/
def ActiveUnique (db : DB) : Prop :=
  List.Pairwise
    (fun a b => ¬(a.driverId = b.driverId ∧
      a.status = TripStatus.active ∧ b.status = TripStatus.active))
    db.tripSessions

/-- The §3 `Scan` invariant: no two scan rows share a
(tripSessionId, passengerId) pair. -/
def ScanPairUnique (db : DB) : Prop :=
  List.Pairwise
    (fun a b => ¬(a.tripSessionId = b.tripSessionId ∧ a.passengerId = b.passengerId))
    db.scans

/-- The §3 `Member` invariant: at most one member row per `userId` globally. -/
def MemberUnique (db : DB) : Prop :=
  List.Pairwise (fun a b => a.userId ≠ b.userId) db.members

end Savari

namespace Savari

theorem createOperator_frame {auth : Option User} {now : Nat} {db db' : DB}
    {name slug : String} {r : Nat}
    (h : Operators.create auth now db name slug = .ok (db', r)) :
    db'.scans = db.scans ∧ db'.tripSessions = db.tripSessions := by
  unfold Operators.create at h
  repeat' split at h
  all_goals try exact Except.noConfusion h
  simp only [Except.ok.injEq, Prod.mk.injEq] at h
  obtain ⟨rfl, rfl⟩ := h
  exact ⟨rfl, rfl⟩

theorem createInvite_frame {auth : Option User} {now : Nat} {token : String}
    {db db' : DB} {operatorId : Nat} {email : String} {role : InviteRole}
    {r : Nat × String}
    (h : Members.createInvite auth now token db operatorId email role = .ok (db', r)) :
    db'.scans = db.scans ∧ db'.tripSessions = db.tripSessions := by
  unfold Members.createInvite at h
  repeat' split at h
  all_goals try exact Except.noConfusion h
  simp only [Except.ok.injEq, Prod.mk.injEq] at h
  obtain ⟨rfl, rfl⟩ := h
  exact ⟨rfl, rfl⟩

theorem acceptInvite_frame {auth : Option User} {now : Nat} {db db' : DB}
    {token : String} {r : Nat}
    (h : Members.acceptInvite auth now db token = .ok (db', r)) :
    db'.scans = db.scans ∧ db'.tripSessions = db.tripSessions := by
  unfold Members.acceptInvite at h
  repeat' split at h
  all_goals try exact Except.noConfusion h
  simp only [Except.ok.injEq, Prod.mk.injEq] at h
  obtain ⟨rfl, rfl⟩ := h
  exact ⟨rfl, rfl⟩

theorem removeMember_frame {auth : Option User} {db db' : DB} {memberId : Nat}
    (h : Members.removeMember auth db memberId = .ok db') :
    db'.scans = db.scans ∧ db'.tripSessions = db.tripSessions := by
  unfold Members.removeMember at h
  repeat' split at h
  all_goals try exact Except.noConfusion h
  simp only [Except.ok.injEq] at h
  subst h
  exact ⟨rfl, rfl⟩

theorem deleteInvite_frame {auth : Option User} {db db' : DB} {inviteId : Nat}
    (h : Members.deleteInvite auth db inviteId = .ok db') :
    db'.scans = db.scans ∧ db'.tripSessions = db.tripSessions := by
  unfold Members.deleteInvite at h
  repeat' split at h
  all_goals try exact Except.noConfusion h
  simp only [Except.ok.injEq] at h
  subst h
  exact ⟨rfl, rfl⟩

theorem createRoute_frame {auth : Option User} {now : Nat} {db db' : DB}
    {operatorId : Nat} {name : String} {description : Option String} {r : Nat}
    (h : Routes.create auth now db operatorId name description = .ok (db', r)) :
    db'.scans = db.scans ∧ db'.tripSessions = db.tripSessions := by
  unfold Routes.create at h
  repeat' split at h
  all_goals try exact Except.noConfusion h
  simp only [Except.ok.injEq, Prod.mk.injEq] at h
  obtain ⟨rfl, rfl⟩ := h
  exact ⟨rfl, rfl⟩

theorem updateRoute_frame {auth : Option User} {db db' : DB} {routeId : Nat}
    {name description : Option String} {isActive : Option Bool}
    (h : Routes.update auth db routeId name description isActive = .ok db') :
    db'.scans = db.scans ∧ db'.tripSessions = db.tripSessions := by
  unfold Routes.update at h
  repeat' split at h
  all_goals try exact Except.noConfusion h
  all_goals (simp only [Except.ok.injEq] at h; subst h; exact ⟨rfl, rfl⟩)

theorem removeRoute_frame {auth : Option User} {db db' : DB} {routeId : Nat}
    (h : Routes.remove auth db routeId = .ok db') :
    db'.scans = db.scans ∧ db'.tripSessions = db.tripSessions := by
  unfold Routes.remove at h
  repeat' split at h
  all_goals try exact Except.noConfusion h
  simp only [Except.ok.injEq] at h
  subst h
  exact ⟨rfl, rfl⟩

theorem createPassenger_frame {auth : Option User} {now : Nat} {qrSuffix : String}
    {db db' : DB} {operatorId : Nat} {name email : String} {r : Nat}
    (h : Passengers.create auth now qrSuffix db operatorId name email = .ok (db', r)) :
    db'.scans = db.scans ∧ db'.tripSessions = db.tripSessions := by
  unfold Passengers.create at h
  repeat' split at h
  all_goals try exact Except.noConfusion h
  simp only [Except.ok.injEq, Prod.mk.injEq] at h
  obtain ⟨rfl, rfl⟩ := h
  exact ⟨rfl, rfl⟩

theorem updatePassenger_frame {auth : Option User} {db db' : DB} {passengerId : Nat}
    {name email : Option String}
    (h : Passengers.update auth db passengerId name email = .ok db') :
    db'.scans = db.scans ∧ db'.tripSessions = db.tripSessions := by
  unfold Passengers.update at h
  repeat' split at h
  all_goals try exact Except.noConfusion h
  simp only [Except.ok.injEq] at h
  subst h
  exact ⟨rfl, rfl⟩

theorem archivePassenger_frame {auth : Option User} {now : Nat} {db db' : DB}
    {passengerId : Nat}
    (h : Passengers.archive auth now db passengerId = .ok db') :
    db'.scans = db.scans ∧ db'.tripSessions = db.tripSessions := by
  unfold Passengers.archive at h
  repeat' split at h
  all_goals try exact Except.noConfusion h
  simp only [Except.ok.injEq] at h
  subst h
  exact ⟨rfl, rfl⟩

theorem resendTicketEmail_frame {auth : Option User} {db db' : DB}
    {passengerId : Nat}
    (h : Passengers.resendTicketEmail auth db passengerId = .ok db') :
    db' = db := by
  unfold Passengers.resendTicketEmail at h
  repeat' split at h
  all_goals try exact Except.noConfusion h
  simp only [Except.ok.injEq] at h
  exact h.symm

theorem startTrip_ok {auth : Option User} {now : Nat} {db db' : DB}
    {routeId : Nat} {r : Nat}
    (h : Trips.startTrip auth now db routeId = .ok (db', r)) :
    db'.scans = db.scans ∧
    ∃ ts : TripSession, ts.status = TripStatus.active ∧
      db.activeTripByDriver ts.driverId = none ∧
      db'.tripSessions = db.tripSessions ++ [ts] := by
  unfold Trips.startTrip at h
  repeat' split at h
  all_goals try exact Except.noConfusion h
  simp only [Except.ok.injEq, Prod.mk.injEq] at h
  obtain ⟨rfl, rfl⟩ := h
  refine ⟨rfl, _, rfl, ?_, rfl⟩
  assumption

theorem endTrip_ok {auth : Option User} {now : Nat} {db db' : DB}
    {tripSessionId : Nat}
    (h : Trips.endTrip auth now db tripSessionId = .ok db') :
    db' = db.patchTrip tripSessionId (fun t =>
      { t with status := TripStatus.completed, endedAt := some now }) := by
  unfold Trips.endTrip at h
  repeat' split at h
  all_goals try exact Except.noConfusion h
  simp only [Except.ok.injEq] at h
  exact h.symm

theorem scanPassenger_ok {auth : Option User} {now : Nat} {db db' : DB}
    {tripSessionId : Nat} {qrCode : String} {out : Trips.ScanOutcome}
    (h : Trips.scanPassenger auth now db tripSessionId qrCode = .ok (db', out)) :
    db'.tripSessions = db.tripSessions ∧
    (db' = db ∨
      (db.scanByTripPassenger tripSessionId out.passenger.id = none ∧
       ∃ s : Scan, s.tripSessionId = tripSessionId ∧ s.passengerId = out.passenger.id ∧
         db'.scans = db.scans ++ [s])) := by
  unfold Trips.scanPassenger at h
  repeat' split at h
  all_goals try exact Except.noConfusion h
  · simp only [Except.ok.injEq, Prod.mk.injEq] at h
    obtain ⟨rfl, rfl⟩ := h
    exact ⟨rfl, Or.inl rfl⟩
  · simp only [Except.ok.injEq, Prod.mk.injEq] at h
    obtain ⟨rfl, rfl⟩ := h
    refine ⟨rfl, Or.inr ⟨?_, _, rfl, rfl, rfl⟩⟩
    assumption

end Savari

namespace Savari

/-- Appending a trip session for a driver with no current active trip preserves
the one-active-trip-per-driver invariant. -/
theorem activeUnique_append {db : DB} {ts : TripSession}
    (h2 : ActiveUnique db) (hst : ts.status = TripStatus.active)
    (hnone : db.activeTripByDriver ts.driverId = none) :
    List.Pairwise
      (fun a b => ¬(a.driverId = b.driverId ∧
        a.status = TripStatus.active ∧ b.status = TripStatus.active))
      (db.tripSessions ++ [ts]) := by
  unfold DB.activeTripByDriver at hnone
  rw [List.find?_eq_none] at hnone
  rw [List.pairwise_append]
  refine ⟨h2, List.pairwise_singleton _ _, ?_⟩
  intro a ha b hb
  simp only [List.mem_singleton] at hb
  subst hb
  rintro ⟨hd, hsa, _⟩
  exact hnone a ha (by simp [hd, hsa])

/-- Marking one trip session completed preserves the one-active-trip-per-driver
invariant. -/
theorem activeUnique_patch {db : DB} {tripSessionId : Nat} {now : Nat}
    (h2 : ActiveUnique db) :
    ActiveUnique (db.patchTrip tripSessionId (fun t =>
      { t with status := TripStatus.completed, endedAt := some now })) := by
  unfold ActiveUnique at h2 ⊢
  simp only [DB.patchTrip]
  refine List.Pairwise.map _ ?_ h2
  intro a b hab hcon
  apply hab
  obtain ⟨hd, ha, hb⟩ := hcon
  by_cases h : a.id = tripSessionId <;> by_cases h' : b.id = tripSessionId <;>
    simp [h, h'] at hd ha hb <;> exact ⟨hd, ha, hb⟩

/-- Appending a scan for a (trip, passenger) pair that has no scan yet preserves
the one-scan-per-pair invariant. -/
theorem scanPairUnique_append {db : DB} {s : Scan}
    (h1 : ScanPairUnique db)
    (hnone : db.scanByTripPassenger s.tripSessionId s.passengerId = none) :
    List.Pairwise
      (fun a b => ¬(a.tripSessionId = b.tripSessionId ∧ a.passengerId = b.passengerId))
      (db.scans ++ [s]) := by
  unfold DB.scanByTripPassenger at hnone
  rw [List.find?_eq_none] at hnone
  rw [List.pairwise_append]
  refine ⟨h1, List.pairwise_singleton _ _, ?_⟩
  intro a ha b hb
  simp only [List.mem_singleton] at hb
  subst hb
  rintro ⟨ht, hp⟩
  exact hnone a ha (by simp [ht, hp])

/-- Every mutation of the backend preserves both core invariants: at most one
scan per (trip, passenger) pair and at most one active trip per driver. -/
theorem invariants_step (db : DB) (a : Action)
    (h1 : ScanPairUnique db) (h2 : ActiveUnique db) :
    ScanPairUnique (applyAction db a) ∧ ActiveUnique (applyAction db a) := by
  cases a with
  | createOperator auth now name slug =>
    simp only [applyAction]; split
    · rename_i db' r h
      obtain ⟨hs, ht⟩ := createOperator_frame h
      exact ⟨by unfold ScanPairUnique at h1 ⊢; rw [hs]; exact h1,
             by unfold ActiveUnique at h2 ⊢; rw [ht]; exact h2⟩
    · exact ⟨h1, h2⟩
  | createInvite auth now token operatorId email role =>
    simp only [applyAction]; split
    · rename_i db' r h
      obtain ⟨hs, ht⟩ := createInvite_frame h
      exact ⟨by unfold ScanPairUnique at h1 ⊢; rw [hs]; exact h1,
             by unfold ActiveUnique at h2 ⊢; rw [ht]; exact h2⟩
    · exact ⟨h1, h2⟩
  | acceptInvite auth now token =>
    simp only [applyAction]; split
    · rename_i db' r h
      obtain ⟨hs, ht⟩ := acceptInvite_frame h
      exact ⟨by unfold ScanPairUnique at h1 ⊢; rw [hs]; exact h1,
             by unfold ActiveUnique at h2 ⊢; rw [ht]; exact h2⟩
    · exact ⟨h1, h2⟩
  | removeMember auth memberId =>
    simp only [applyAction]; split
    · rename_i db' h
      obtain ⟨hs, ht⟩ := removeMember_frame h
      exact ⟨by unfold ScanPairUnique at h1 ⊢; rw [hs]; exact h1,
             by unfold ActiveUnique at h2 ⊢; rw [ht]; exact h2⟩
    · exact ⟨h1, h2⟩
  | deleteInvite auth inviteId =>
    simp only [applyAction]; split
    · rename_i db' h
      obtain ⟨hs, ht⟩ := deleteInvite_frame h
      exact ⟨by unfold ScanPairUnique at h1 ⊢; rw [hs]; exact h1,
             by unfold ActiveUnique at h2 ⊢; rw [ht]; exact h2⟩
    · exact ⟨h1, h2⟩
  | createRoute auth now operatorId name description =>
    simp only [applyAction]; split
    · rename_i db' r h
      obtain ⟨hs, ht⟩ := createRoute_frame h
      exact ⟨by unfold ScanPairUnique at h1 ⊢; rw [hs]; exact h1,
             by unfold ActiveUnique at h2 ⊢; rw [ht]; exact h2⟩
    · exact ⟨h1, h2⟩
  | updateRoute auth routeId name description isActive =>
    simp only [applyAction]; split
    · rename_i db' h
      obtain ⟨hs, ht⟩ := updateRoute_frame h
      exact ⟨by unfold ScanPairUnique at h1 ⊢; rw [hs]; exact h1,
             by unfold ActiveUnique at h2 ⊢; rw [ht]; exact h2⟩
    · exact ⟨h1, h2⟩
  | removeRoute auth routeId =>
    simp only [applyAction]; split
    · rename_i db' h
      obtain ⟨hs, ht⟩ := removeRoute_frame h
      exact ⟨by unfold ScanPairUnique at h1 ⊢; rw [hs]; exact h1,
             by unfold ActiveUnique at h2 ⊢; rw [ht]; exact h2⟩
    · exact ⟨h1, h2⟩
  | createPassenger auth now qrSuffix operatorId name email =>
    simp only [applyAction]; split
    · rename_i db' r h
      obtain ⟨hs, ht⟩ := createPassenger_frame h
      exact ⟨by unfold ScanPairUnique at h1 ⊢; rw [hs]; exact h1,
             by unfold ActiveUnique at h2 ⊢; rw [ht]; exact h2⟩
    · exact ⟨h1, h2⟩
  | updatePassenger auth passengerId name email =>
    simp only [applyAction]; split
    · rename_i db' h
      obtain ⟨hs, ht⟩ := updatePassenger_frame h
      exact ⟨by unfold ScanPairUnique at h1 ⊢; rw [hs]; exact h1,
             by unfold ActiveUnique at h2 ⊢; rw [ht]; exact h2⟩
    · exact ⟨h1, h2⟩
  | archivePassenger auth now passengerId =>
    simp only [applyAction]; split
    · rename_i db' h
      obtain ⟨hs, ht⟩ := archivePassenger_frame h
      exact ⟨by unfold ScanPairUnique at h1 ⊢; rw [hs]; exact h1,
             by unfold ActiveUnique at h2 ⊢; rw [ht]; exact h2⟩
    · exact ⟨h1, h2⟩
  | resendTicketEmail auth passengerId =>
    simp only [applyAction]; split
    · rename_i db' h
      rw [resendTicketEmail_frame h]
      exact ⟨h1, h2⟩
    · exact ⟨h1, h2⟩
  | startTrip auth now routeId =>
    simp only [applyAction]; split
    · rename_i db' r h
      obtain ⟨hs, ts, hst, hnone, htrips⟩ := startTrip_ok h
      constructor
      · unfold ScanPairUnique at h1 ⊢; rw [hs]; exact h1
      · unfold ActiveUnique; rw [htrips]; exact activeUnique_append h2 hst hnone
    · exact ⟨h1, h2⟩
  | endTrip auth now tripSessionId =>
    simp only [applyAction]; split
    · rename_i db' h
      rw [endTrip_ok h]
      exact ⟨h1, activeUnique_patch h2⟩
    · exact ⟨h1, h2⟩
  | scanPassenger auth now tripSessionId qrCode =>
    simp only [applyAction]; split
    · rename_i db' out h
      obtain ⟨ht, hcase⟩ := scanPassenger_ok h
      rcases hcase with rfl | ⟨hnone, s, hst, hsp, hscans⟩
      · exact ⟨h1, h2⟩
      · constructor
        · unfold ScanPairUnique; rw [hscans]
          exact scanPairUnique_append h1 (by rw [hst, hsp]; exact hnone)
        · unfold ActiveUnique at h2 ⊢; rw [ht]; exact h2
    · exact ⟨h1, h2⟩

/-- Both core invariants hold in every reachable state of the store. -/
theorem invariants_reachable {db : DB} (h : Reachable db) :
    ScanPairUnique db ∧ ActiveUnique db := by
  induction h with
  | init =>
    exact ⟨List.Pairwise.nil, List.Pairwise.nil⟩
  | step a _ ih =>
    exact invariants_step _ a ih.1 ih.2

end Savari

namespace Savari

/-- C2: For every driver, no reachable state has two active trip sessions with
that driver; and a `startTrip` call by a driver who already has an active trip
(with the route precondition met) fails with the conflict error and, the
transaction rolling back, leaves the store unchanged. -/
theorem startTrip_unique_active :
    (∀ db : DB, Reachable db → ActiveUnique db) ∧
    (∀ (auth : Option User) (now : Nat) (db : DB) (routeId : Nat)
       (user : User) (membership : Member) (route : Route) (t : TripSession),
       requireDriverRole auth db = .ok (user, membership) →
       db.getRoute routeId = some route →
       route.operatorId = membership.operatorId →
       t ∈ db.tripSessions → t.driverId = user.id → t.status = TripStatus.active →
       Trips.startTrip auth now db routeId =
         .error "You already have an active trip. End it first." ∧
       applyAction db (.startTrip auth now routeId) = db) := by
  constructor
  · intro db h
    exact (invariants_reachable h).2
  · intro auth now db routeId user membership route t hreq hroute hop htmem htd hts
    have hex : db.activeTripByDriver user.id ≠ none := by
      intro hnone
      unfold DB.activeTripByDriver at hnone
      rw [List.find?_eq_none] at hnone
      exact hnone t htmem (by simp [htd, hts])
    cases hfind : db.activeTripByDriver user.id with
    | none => exact absurd hfind hex
    | some t' =>
      have herr : Trips.startTrip auth now db routeId =
          .error "You already have an active trip. End it first." := by
        unfold Trips.startTrip
        simp only [hreq, hroute]
        rw [hfind]
        simp [hop]
      exact ⟨herr, by simp only [applyAction]; rw [herr]⟩

end Savari

namespace Savari

/-- Operator member of the fixture operator. -/
def uOp : User := { id := "u-op", email := "op@x.com", name := some "Olive" }

/-- Driver member of the fixture operator. -/
def uDrv : User := { id := "u-drv", email := "drv@x.com", name := some "Dan" }

/-- Business member of the fixture operator. -/
def uBiz : User := { id := "u-biz", email := "biz@x.com", name := some "Bea" }

/-- A user with no membership anywhere. -/
def uNew : User := { id := "u-new", email := "new@x.com", name := none }

/-- Member row of the fixture driver. -/
def mDrv : Member :=
  { id := 3, operatorId := 1, userId := "u-drv", role := Role.driver,
    email := "drv@x.com", name := "Dan", createdAt := 0 }

/-- Member row of the fixture business. -/
def mBiz : Member :=
  { id := 4, operatorId := 1, userId := "u-biz", role := Role.business,
    email := "biz@x.com", name := "Bea", createdAt := 0 }

/-- The fixture route. -/
def rDowntown : Route :=
  { id := 5, operatorId := 1, name := "Downtown", description := none,
    isActive := true, createdAt := 0 }

/-- An unarchived fixture passenger, already scanned on the active trip. -/
def pAlice : Passenger :=
  { id := 6, operatorId := 1, businessId := "u-biz", name := "Alice",
    email := "alice@x.com", qrCode := "SAVARI-alice1234", createdAt := 10,
    archivedAt := none }

/-- An archived fixture passenger, not yet scanned. -/
def pBob : Passenger :=
  { id := 7, operatorId := 1, businessId := "u-biz", name := "Bob",
    email := "bob@x.com", qrCode := "SAVARI-bob12345", createdAt := 10,
    archivedAt := some 20 }

/-- The fixture driver's active trip session. -/
def tripActive : TripSession :=
  { id := 8, operatorId := 1, routeId := 5, driverId := "u-drv",
    startedAt := 30, endedAt := none, status := TripStatus.active }

/-- A completed trip session of the fixture driver. -/
def tripDone : TripSession :=
  { id := 9, operatorId := 1, routeId := 5, driverId := "u-drv",
    startedAt := 5, endedAt := some 6, status := TripStatus.completed }

/-- The scan of Alice on the active trip. -/
def scanAlice : Scan :=
  { id := 10, operatorId := 1, tripSessionId := 8, passengerId := 6,
    scannedAt := 31, scannedBy := "u-drv" }

/-- A fresh, unused, unexpired fixture invite. -/
def invFresh : Invite :=
  { id := 11, operatorId := 1, email := "inv@x.com", role := InviteRole.driver,
    token := "tok-fresh", createdAt := 0, expiresAt := 1000, usedAt := none }

/-- A fixture invite that has already been used. -/
def invUsed : Invite :=
  { id := 12, operatorId := 1, email := "used@x.com", role := InviteRole.driver,
    token := "tok-used", createdAt := 0, expiresAt := 1000, usedAt := some 50 }

/-- A fixture invite that expired at time 40. -/
def invOld : Invite :=
  { id := 13, operatorId := 1, email := "old@x.com", role := InviteRole.business,
    token := "tok-old", createdAt := 0, expiresAt := 40, usedAt := none }

/-- A fixture store: one operator with an operator, a driver and a business
member, one route, one unarchived and one archived passenger, one active and
one completed trip, one scan, and a fresh, a used and an expired invite. -/
def dbW : DB :=
  { operators := [{ id := 1, name := "Acme", slug := "acme", ownerId := "u-op",
                    createdAt := 0 }],
    members := [{ id := 2, operatorId := 1, userId := "u-op", role := Role.operator,
                  email := "op@x.com", name := "Olive", createdAt := 0 },
                mDrv, mBiz],
    routes := [rDowntown],
    passengers := [pAlice, pBob],
    tripSessions := [tripActive, tripDone],
    scans := [scanAlice],
    invites := [invFresh, invUsed, invOld],
    nextId := 100 }

/-- Witness for the C2 theorem at concrete inputs. -/
theorem startTrip_unique_active_witness :
    ActiveUnique emptyDB ∧
    (Trips.startTrip (some uDrv) 40 dbW 5 =
       .error "You already have an active trip. End it first." ∧
     applyAction dbW (.startTrip (some uDrv) 40 5) = dbW) := by
  constructor
  · exact startTrip_unique_active.1 emptyDB Reachable.init
  · exact startTrip_unique_active.2 (some uDrv) 40 dbW 5 uDrv mDrv rDowntown tripActive
      (by decide) (by decide) (by decide) (by decide) (by decide) (by decide)

end Savari

namespace Savari

/-- C1: No reachable state has two scan rows for the same
(tripSessionId, passengerId) pair; with all other preconditions met, a
`scanPassenger` call whose pair already has a scan returns the non-error
`already_scanned` result carrying the passenger record and leaves the store
unchanged, and a call whose pair has no scan inserts exactly one scan row and
returns `success` with the passenger record. -/
theorem scanPassenger_idempotent :
    (∀ db : DB, Reachable db → ScanPairUnique db) ∧
    (∀ (auth : Option User) (now : Nat) (db : DB) (tripSessionId : Nat) (qrCode : String)
       (user : User) (membership : Member) (trip : TripSession) (p : Passenger),
       requireDriverRole auth db = .ok (user, membership) →
       db.getTrip tripSessionId = some trip →
       trip.driverId = user.id → trip.status = TripStatus.active →
       db.passengerByQr qrCode = some p →
       p.operatorId = membership.operatorId →
       (∀ s : Scan, db.scanByTripPassenger tripSessionId p.id = some s →
          Trips.scanPassenger auth now db tripSessionId qrCode =
            .ok (db, ⟨p, Trips.ScanStatus.already_scanned⟩)) ∧
       (db.scanByTripPassenger tripSessionId p.id = none →
          Trips.scanPassenger auth now db tripSessionId qrCode =
            .ok ({ db with
                    scans := db.scans ++
                      [{ id := db.nextId, operatorId := membership.operatorId,
                         tripSessionId := tripSessionId, passengerId := p.id,
                         scannedAt := now, scannedBy := user.id }],
                    nextId := db.nextId + 1 },
                 ⟨p, Trips.ScanStatus.success⟩))) := by
  constructor
  · intro db h
    exact (invariants_reachable h).1
  · intro auth now db tripSessionId qrCode user membership trip p
      hreq htrip htd hts hqr hop
    constructor
    · intro s hdup
      unfold Trips.scanPassenger
      simp only [hreq, htrip, hqr]
      rw [hdup]
      simp [htd, hts, hop]
    · intro hdup
      unfold Trips.scanPassenger
      simp only [hreq, htrip, hqr]
      rw [hdup]
      simp [htd, hts, hop]

/-- Witness for the C1 theorem at concrete inputs: the duplicate branch scans
Alice (already scanned on the active trip), the insert branch scans Bob. -/
theorem scanPassenger_idempotent_witness :
    ScanPairUnique emptyDB ∧
    Trips.scanPassenger (some uDrv) 60 dbW 8 "SAVARI-alice1234" =
      .ok (dbW, ⟨pAlice, Trips.ScanStatus.already_scanned⟩) ∧
    Trips.scanPassenger (some uDrv) 60 dbW 8 "SAVARI-bob12345" =
      .ok ({ dbW with
              scans := dbW.scans ++
                [{ id := 100, operatorId := 1, tripSessionId := 8, passengerId := 7,
                   scannedAt := 60, scannedBy := "u-drv" }],
              nextId := 101 },
           ⟨pBob, Trips.ScanStatus.success⟩) := by
  refine ⟨scanPassenger_idempotent.1 emptyDB Reachable.init, ?_, ?_⟩
  · exact (scanPassenger_idempotent.2 (some uDrv) 60 dbW 8 "SAVARI-alice1234"
      uDrv mDrv tripActive pAlice rfl rfl (by decide) (by decide) rfl (by decide)).1
      scanAlice rfl
  · exact (scanPassenger_idempotent.2 (some uDrv) 60 dbW 8 "SAVARI-bob12345"
      uDrv mDrv tripActive pBob rfl rfl (by decide) (by decide) rfl (by decide)).2 rfl

end Savari

namespace Savari

/-- Patching a trip that `ctx.db.get` finds, with an id-preserving patch, makes
`ctx.db.get` return the patched row. -/
theorem getTrip_patchTrip {db : DB} {i : Nat} {f : TripSession → TripSession}
    (hid : ∀ t, (f t).id = t.id) {trip : TripSession}
    (h : db.getTrip i = some trip) :
    (db.patchTrip i f).getTrip i = some (f trip) := by
  have htid : trip.id = i := by
    have := List.find?_some h
    simpa using this
  simp only [DB.getTrip] at h ⊢
  simp only [DB.patchTrip]
  simp only [List.find?_map]
  have hpred : ((fun t : TripSession => t.id == i) ∘
      (fun t => if t.id = i then f t else t)) = (fun t : TripSession => t.id == i) := by
    funext t
    by_cases h' : t.id = i <;> simp [h', hid]
  rw [hpred, h]
  simp [htid]

/-- C5: `endTrip` by the owning driver on a trip that is not active fails with
the invalid-state error and leaves the store unchanged, so `endedAt` is never
mutated twice; on an active trip it patches exactly that row to
`status=completed`, `endedAt=now`. -/
theorem endTrip_no_double_end :
    ∀ (auth : Option User) (now : Nat) (db : DB) (tripSessionId : Nat)
      (user : User) (membership : Member) (trip : TripSession),
      requireDriverRole auth db = .ok (user, membership) →
      db.getTrip tripSessionId = some trip →
      trip.driverId = user.id →
      (trip.status ≠ TripStatus.active →
         Trips.endTrip auth now db tripSessionId = .error "Trip is not active" ∧
         applyAction db (.endTrip auth now tripSessionId) = db) ∧
      (trip.status = TripStatus.active →
         Trips.endTrip auth now db tripSessionId =
           .ok (db.patchTrip tripSessionId (fun t =>
             { t with status := TripStatus.completed, endedAt := some now })) ∧
         (db.patchTrip tripSessionId (fun t =>
             { t with status := TripStatus.completed, endedAt := some now })).getTrip
             tripSessionId =
           some { trip with status := TripStatus.completed, endedAt := some now }) := by
  intro auth now db tripSessionId user membership trip hreq htrip htd
  constructor
  · intro hst
    have herr : Trips.endTrip auth now db tripSessionId = .error "Trip is not active" := by
      unfold Trips.endTrip
      simp only [hreq, htrip]
      simp [htd, hst]
    exact ⟨herr, by simp only [applyAction]; rw [herr]⟩
  · intro hst
    constructor
    · unfold Trips.endTrip
      simp only [hreq, htrip]
      simp [htd, hst]
    · exact @getTrip_patchTrip db tripSessionId
        (fun t => { t with status := TripStatus.completed, endedAt := some now })
        (fun t => rfl) trip htrip

/-- Witness for the C5 theorem at concrete inputs: ending the completed fixture
trip fails and changes nothing; ending the active one completes it. -/
theorem endTrip_no_double_end_witness :
    (Trips.endTrip (some uDrv) 70 dbW 9 = .error "Trip is not active" ∧
     applyAction dbW (.endTrip (some uDrv) 70 9) = dbW) ∧
    (Trips.endTrip (some uDrv) 70 dbW 8 =
       .ok (dbW.patchTrip 8 (fun t =>
         { t with status := TripStatus.completed, endedAt := some 70 })) ∧
     (dbW.patchTrip 8 (fun t =>
         { t with status := TripStatus.completed, endedAt := some 70 })).getTrip 8 =
       some { tripActive with status := TripStatus.completed, endedAt := some 70 }) := by
  constructor
  · exact (endTrip_no_double_end (some uDrv) 70 dbW 9 uDrv mDrv tripDone
      rfl rfl (by decide)).1 (by decide)
  · exact (endTrip_no_double_end (some uDrv) 70 dbW 8 uDrv mDrv tripActive
      rfl rfl (by decide)).2 (by decide)

/-- C6: every `scanPassenger` call against a completed trip session fails with
an error (no matter the caller or QR code) and, the transaction rolling back,
inserts no scan row. -/
theorem scanPassenger_rejects_completed :
    ∀ (auth : Option User) (now : Nat) (db : DB) (tripSessionId : Nat) (qrCode : String)
      (trip : TripSession),
      db.getTrip tripSessionId = some trip →
      trip.status = TripStatus.completed →
      (∃ msg : String, Trips.scanPassenger auth now db tripSessionId qrCode = .error msg) ∧
      applyAction db (.scanPassenger auth now tripSessionId qrCode) = db := by
  intro auth now db tripSessionId qrCode trip htrip hst
  have herr : ∃ msg : String,
      Trips.scanPassenger auth now db tripSessionId qrCode = .error msg := by
    cases hreq : requireDriverRole auth db with
    | error e =>
      exact ⟨e, by unfold Trips.scanPassenger; simp only [hreq]⟩
    | ok um =>
      obtain ⟨user, membership⟩ := um
      by_cases hd : trip.driverId = user.id
      · refine ⟨"Trip is not active", ?_⟩
        unfold Trips.scanPassenger
        simp only [hreq, htrip]
        simp [hd, hst]
      · refine ⟨"Cannot scan for another driver's trip", ?_⟩
        unfold Trips.scanPassenger
        simp only [hreq, htrip]
        simp [hd]
  obtain ⟨msg, hmsg⟩ := herr
  exact ⟨⟨msg, hmsg⟩, by simp only [applyAction]; rw [hmsg]⟩

/-- Witness for the C6 theorem at concrete inputs: scanning any QR code into
the completed fixture trip fails and changes nothing. -/
theorem scanPassenger_rejects_completed_witness :
    (∃ msg : String,
       Trips.scanPassenger (some uDrv) 80 dbW 9 "SAVARI-alice1234" = .error msg) ∧
    applyAction dbW (.scanPassenger (some uDrv) 80 9 "SAVARI-alice1234") = dbW :=
  scanPassenger_rejects_completed (some uDrv) 80 dbW 9 "SAVARI-alice1234" tripDone
    rfl (by decide)

end Savari

namespace Savari

/-- Patching a passenger that `ctx.db.get` finds, with an id-preserving patch,
makes `ctx.db.get` return the patched row. -/
theorem getPassenger_patchPassenger {db : DB} {i : Nat} {f : Passenger → Passenger}
    (hid : ∀ p, (f p).id = p.id) {p : Passenger}
    (h : db.getPassenger i = some p) :
    (db.patchPassenger i f).getPassenger i = some (f p) := by
  have hpid : p.id = i := by
    have := List.find?_some h
    simpa using this
  simp only [DB.getPassenger] at h ⊢
  simp only [DB.patchPassenger]
  simp only [List.find?_map]
  have hpred : ((fun q : Passenger => q.id == i) ∘
      (fun q => if q.id = i then f q else q)) = (fun q : Passenger => q.id == i) := by
    funext q
    by_cases h' : q.id = i <;> simp [h', hid]
  rw [hpred, h]
  simp [hpid]

/-- A guard that only reads `members` gives the same answer on a store with the
same `members` table: `requireBusinessRole`. -/
theorem requireBusinessRole_members_eq {auth : Option User} {db db' : DB}
    (h : db'.members = db.members) :
    requireBusinessRole auth db' = requireBusinessRole auth db := by
  unfold requireBusinessRole DB.memberByUser
  cases auth <;> simp [h]

/-- The store after archiving the fixture passenger Alice at time 100. -/
def dbArch1 : DB := applyAction dbW (.archivePassenger (some uBiz) 100 6)

/-- The store after archiving Alice a second time, at time 200. -/
def dbArch2 : DB := applyAction dbArch1 (.archivePassenger (some uBiz) 200 6)

/-- Counterexample to C4 as stated: the second `archivePassenger` call succeeds
but overwrites `archivedAt` with the second call's clock reading (200), so the
value set by the first call (100) is not preserved. -/
theorem archive_second_call_moves_timestamp :
    Passengers.archive (some uBiz) 100 dbW 6 = .ok dbArch1 ∧
    (dbArch1.getPassenger 6).map Passenger.archivedAt = some (some 100) ∧
    Passengers.archive (some uBiz) 200 dbArch1 6 = .ok dbArch2 ∧
    (dbArch2.getPassenger 6).map Passenger.archivedAt = some (some 200) ∧
    ¬((dbArch2.getPassenger 6).map Passenger.archivedAt = some (some 100)) := by
  decide

/-- C4 amended: a second `archivePassenger` call by the owning business
succeeds (archiving stays idempotent in that the passenger remains archived),
but each call overwrites `archivedAt` with its own clock reading, so after the
second call `archivedAt` holds the second call's time, not the first's. -/
theorem archive_idempotent_amended :
    ∀ (auth : Option User) (now1 now2 : Nat) (db : DB) (passengerId : Nat)
      (user : User) (membership : Member) (p : Passenger),
      requireBusinessRole auth db = .ok (user, membership) →
      db.getPassenger passengerId = some p →
      p.businessId = user.id →
      Passengers.archive auth now1 db passengerId =
        .ok (db.patchPassenger passengerId (fun q => { q with archivedAt := some now1 })) ∧
      (db.patchPassenger passengerId
          (fun q => { q with archivedAt := some now1 })).getPassenger passengerId =
        some { p with archivedAt := some now1 } ∧
      Passengers.archive auth now2
          (db.patchPassenger passengerId (fun q => { q with archivedAt := some now1 }))
          passengerId =
        .ok ((db.patchPassenger passengerId
                (fun q => { q with archivedAt := some now1 })).patchPassenger passengerId
              (fun q => { q with archivedAt := some now2 })) ∧
      ((db.patchPassenger passengerId
          (fun q => { q with archivedAt := some now1 })).patchPassenger passengerId
            (fun q => { q with archivedAt := some now2 })).getPassenger passengerId =
        some { p with archivedAt := some now2 } := by
  intro auth now1 now2 db passengerId user membership p hreq hp hb
  have h1 : Passengers.archive auth now1 db passengerId =
      .ok (db.patchPassenger passengerId (fun q => { q with archivedAt := some now1 })) := by
    unfold Passengers.archive
    simp only [hreq, hp]
    simp [hb]
  have hget1 : (db.patchPassenger passengerId
      (fun q => { q with archivedAt := some now1 })).getPassenger passengerId =
      some { p with archivedAt := some now1 } :=
    @getPassenger_patchPassenger db passengerId
      (fun q => { q with archivedAt := some now1 }) (fun q => rfl) p hp
  have hreq2 : requireBusinessRole auth
      (db.patchPassenger passengerId (fun q => { q with archivedAt := some now1 })) =
      .ok (user, membership) := by
    rw [@requireBusinessRole_members_eq auth db
      (db.patchPassenger passengerId (fun q => { q with archivedAt := some now1 })) rfl]
    exact hreq
  have h2 : Passengers.archive auth now2
      (db.patchPassenger passengerId (fun q => { q with archivedAt := some now1 }))
      passengerId =
      .ok ((db.patchPassenger passengerId
              (fun q => { q with archivedAt := some now1 })).patchPassenger passengerId
            (fun q => { q with archivedAt := some now2 })) := by
    unfold Passengers.archive
    simp only [hreq2, hget1]
    simp [hb]
  have hget2 : ((db.patchPassenger passengerId
      (fun q => { q with archivedAt := some now1 })).patchPassenger passengerId
        (fun q => { q with archivedAt := some now2 })).getPassenger passengerId =
      some { p with archivedAt := some now2 } :=
    @getPassenger_patchPassenger
      (db.patchPassenger passengerId (fun q => { q with archivedAt := some now1 }))
      passengerId (fun q => { q with archivedAt := some now2 }) (fun q => rfl)
      { p with archivedAt := some now1 } hget1
  exact ⟨h1, hget1, h2, hget2⟩

/-- Witness for the amended C4 theorem at concrete inputs. -/
theorem archive_idempotent_amended_witness :
    Passengers.archive (some uBiz) 100 dbW 6 =
      .ok (dbW.patchPassenger 6 (fun q => { q with archivedAt := some 100 })) ∧
    (dbW.patchPassenger 6 (fun q => { q with archivedAt := some 100 })).getPassenger 6 =
      some { pAlice with archivedAt := some 100 } ∧
    Passengers.archive (some uBiz) 200
        (dbW.patchPassenger 6 (fun q => { q with archivedAt := some 100 })) 6 =
      .ok ((dbW.patchPassenger 6
              (fun q => { q with archivedAt := some 100 })).patchPassenger 6
            (fun q => { q with archivedAt := some 200 })) ∧
    ((dbW.patchPassenger 6
        (fun q => { q with archivedAt := some 100 })).patchPassenger 6
          (fun q => { q with archivedAt := some 200 })).getPassenger 6 =
      some { pAlice with archivedAt := some 200 } :=
  archive_idempotent_amended (some uBiz) 100 200 dbW 6 uBiz mBiz pAlice
    rfl rfl (by decide)

end Savari

namespace Savari

/-- The member-uniqueness invariant is decidable on concrete stores. -/
instance memberUniqueDecidable (db : DB) : Decidable (MemberUnique db) := by
  unfold MemberUnique
  infer_instance

/-- The active-trip invariant is decidable on concrete stores. -/
instance activeUniqueDecidable (db : DB) : Decidable (ActiveUnique db) := by
  unfold ActiveUnique
  infer_instance

/-- The scan-pair invariant is decidable on concrete stores. -/
instance scanPairUniqueDecidable (db : DB) : Decidable (ScanPairUnique db) := by
  unfold ScanPairUnique
  infer_instance

/-- On success, `acceptInvite` requires the caller to have no member row and
appends exactly one member row for the caller (the invite patch touches no
member row). -/
theorem acceptInvite_ok_members {auth : Option User} {now : Nat} {db db' : DB}
    {token : String} {r : Nat}
    (h : Members.acceptInvite auth now db token = .ok (db', r)) :
    ∃ user : User, auth = some user ∧ db.memberByUser user.id = none ∧
      ∃ m : Member, m.userId = user.id ∧ db'.members = db.members ++ [m] := by
  unfold Members.acceptInvite at h
  repeat' split at h
  all_goals try exact Except.noConfusion h
  simp only [Except.ok.injEq, Prod.mk.injEq] at h
  obtain ⟨rfl, rfl⟩ := h
  exact ⟨_, rfl, by assumption, _, rfl, rfl⟩

/-- If the caller already has a member row, `acceptInvite` cannot succeed. -/
theorem acceptInvite_member_blocks {auth : Option User} {now : Nat} {db : DB}
    {token : String} {user : User}
    (hauth : auth = some user)
    (hm : ∃ m ∈ db.members, m.userId = user.id) :
    ∀ (db' : DB) (r : Nat), Members.acceptInvite auth now db token ≠ .ok (db', r) := by
  intro db' r hok
  obtain ⟨user', hauth', hnone, _, _, _⟩ := acceptInvite_ok_members hok
  rw [hauth] at hauth'
  obtain rfl := Option.some.inj hauth'
  unfold DB.memberByUser at hnone
  rw [List.find?_eq_none] at hnone
  obtain ⟨m, hmem, hmid⟩ := hm
  exact hnone m hmem (by simp [hmid])

end Savari

namespace Savari

/-- The store after the fixture driver (already a member) creates an operator. -/
def dbOp2 : DB := applyAction dbW (.createOperator (some uDrv) 300 "Dan Lines" "dan-lines")

/-- Counterexample to C3 as stated: the fixture driver already has a member row,
owns no operator and picks a fresh slug, so `operators.create` succeeds and
inserts a second member row for the same user, violating the global
one-member-per-user invariant. -/
theorem create_operator_breaks_member_unique :
    MemberUnique dbW ∧
    dbW.members.countP (fun m => m.userId == "u-drv") = 1 ∧
    Operators.create (some uDrv) 300 dbW "Dan Lines" "dan-lines" = .ok (dbOp2, 100) ∧
    dbOp2.members.countP (fun m => m.userId == "u-drv") = 2 ∧
    ¬MemberUnique dbOp2 := by
  decide

/-- C3 amended: `acceptInvite` fails rather than insert a second member row for
a user who already has one, and preserves the one-member-per-user invariant;
but `operators.create` checks only slug uniqueness and operator ownership, and
whenever those pass it unconditionally appends a member row for the caller —
with no check of an existing membership — so it does not enforce the global
invariant. -/
theorem member_unique_enforced_only_by_accept :
    (∀ (auth : Option User) (now : Nat) (db : DB) (token : String) (user : User),
       auth = some user →
       (∃ m ∈ db.members, m.userId = user.id) →
       ∀ (db' : DB) (r : Nat), Members.acceptInvite auth now db token ≠ .ok (db', r)) ∧
    (∀ (auth : Option User) (now : Nat) (db db' : DB) (token : String) (r : Nat),
       MemberUnique db →
       Members.acceptInvite auth now db token = .ok (db', r) →
       MemberUnique db') ∧
    (∀ (auth : Option User) (now : Nat) (db : DB) (name slug : String) (user : User),
       auth = some user →
       db.operatorBySlug slug = none →
       db.operatorByOwner user.id = none →
       Operators.create auth now db name slug =
         .ok ({ db with
                 operators := db.operators ++
                   [{ id := db.nextId, name := name, slug := slug,
                      ownerId := user.id, createdAt := now }],
                 members := db.members ++
                   [{ id := db.nextId + 1, operatorId := db.nextId, userId := user.id,
                      role := Role.operator, email := user.email,
                      name := nameOrEmail user, createdAt := now }],
                 nextId := db.nextId + 2 }, db.nextId)) := by
  refine ⟨?_, ?_, ?_⟩
  · intro auth now db token user hauth hm
    exact acceptInvite_member_blocks hauth hm
  · intro auth now db db' token r hu hok
    obtain ⟨user, _, hnone, m, hmid, hmembers⟩ := acceptInvite_ok_members hok
    unfold DB.memberByUser at hnone
    rw [List.find?_eq_none] at hnone
    unfold MemberUnique at hu ⊢
    rw [hmembers, List.pairwise_append]
    refine ⟨hu, List.pairwise_singleton _ _, ?_⟩
    intro a ha b hb
    simp only [List.mem_singleton] at hb
    subst hb
    rw [hmid]
    intro hcon
    exact hnone a ha (by simp [hcon])
  · intro auth now db name slug user hauth hslug howner
    subst hauth
    unfold Operators.create
    simp only [hslug, howner]

/-- Witness for the amended C3 theorem at concrete inputs: the already-member
driver cannot accept a fresh invite; a fresh user accepting the fresh invite
keeps the invariant; and the fresh user can create an operator, gaining the
founding member row. -/
theorem member_unique_enforced_only_by_accept_witness :
    Members.acceptInvite (some uDrv) 100 dbW "tok-fresh" ≠ .ok (dbW, 1) ∧
    MemberUnique (applyAction dbW (.acceptInvite (some uNew) 100 "tok-fresh")) ∧
    Operators.create (some uNew) 300 dbW "New Lines" "new-lines" =
      .ok ({ dbW with
              operators := dbW.operators ++
                [{ id := 100, name := "New Lines", slug := "new-lines",
                   ownerId := "u-new", createdAt := 300 }],
              members := dbW.members ++
                [{ id := 101, operatorId := 100, userId := "u-new",
                   role := Role.operator, email := "new@x.com",
                   name := "new@x.com", createdAt := 300 }],
              nextId := 102 }, 100) := by
  refine ⟨?_, ?_, ?_⟩
  · exact member_unique_enforced_only_by_accept.1 (some uDrv) 100 dbW "tok-fresh" uDrv
      rfl ⟨mDrv, by decide, rfl⟩ dbW 1
  · exact member_unique_enforced_only_by_accept.2.1 (some uNew) 100 dbW
      (applyAction dbW (.acceptInvite (some uNew) 100 "tok-fresh")) "tok-fresh" 1
      (by decide) (by decide)
  · exact member_unique_enforced_only_by_accept.2.2 (some uNew) 300 dbW
      "New Lines" "new-lines" uNew rfl (by decide) (by decide)

end Savari

namespace Savari

/-- Patching the invite found by a token lookup, with a token-preserving patch,
makes the token lookup return the patched row. -/
theorem inviteByToken_patchInvite {db : DB} {token : String} {inv : Invite} {j : Nat}
    (f : Invite → Invite) (hf : ∀ i, (f i).token = i.token)
    (h : db.inviteByToken token = some inv) :
    (db.patchInvite j f).inviteByToken token =
      some (if inv.id = j then f inv else inv) := by
  simp only [DB.inviteByToken] at h ⊢
  simp only [DB.patchInvite]
  simp only [List.find?_map]
  have hpred : ((fun i : Invite => i.token == token) ∘
      (fun i => if i.id = j then f i else i)) = (fun i : Invite => i.token == token) := by
    funext i
    by_cases h' : i.id = j <;> simp [h', hf]
  rw [hpred, h]
  rfl

/-- The store produced by a successful `acceptInvite`: the new member row is
inserted and the invite is marked used in the one transaction. -/
def acceptedDB (db : DB) (user : User) (inv : Invite) (now : Nat) : DB :=
  ({ db with
      members := db.members ++
        [{ id := db.nextId, operatorId := inv.operatorId, userId := user.id,
           role := inv.role.toRole, email := user.email,
           name := nameOrEmail user, createdAt := now }],
      nextId := db.nextId + 1 } : DB).patchInvite inv.id
    (fun i => { i with usedAt := some now })

/-- C7: `acceptInvite` fails on an unknown token; fails on an invite already
used at a real clock time; fails on an expired invite regardless of `usedAt`;
cannot succeed for a caller who already has a member row; and on the success
path returns, in one transaction, the store with the member row inserted and
the invite marked used — after which a second call with the same token fails
with the already-used error. -/
theorem acceptInvite_single_use :
    (∀ (now : Nat) (db : DB) (token : String) (user : User),
       db.inviteByToken token = none →
       Members.acceptInvite (some user) now db token = .error "Invalid invite") ∧
    (∀ (now : Nat) (db : DB) (token : String) (user : User) (inv : Invite) (u : Nat),
       db.inviteByToken token = some inv →
       inv.usedAt = some u → 0 < u →
       Members.acceptInvite (some user) now db token = .error "Invite already used") ∧
    (∀ (now : Nat) (db : DB) (token : String) (user : User) (inv : Invite),
       db.inviteByToken token = some inv →
       inv.expiresAt < now →
       (Members.acceptInvite (some user) now db token = .error "Invite already used" ∨
        Members.acceptInvite (some user) now db token = .error "Invite expired")) ∧
    (∀ (auth : Option User) (now : Nat) (db : DB) (token : String) (user : User),
       auth = some user →
       (∃ m ∈ db.members, m.userId = user.id) →
       ∀ (db' : DB) (r : Nat), Members.acceptInvite auth now db token ≠ .ok (db', r)) ∧
    (∀ (now : Nat) (db : DB) (token : String) (user : User) (inv : Invite),
       db.inviteByToken token = some inv →
       inv.usedAt = none →
       ¬(inv.expiresAt < now) →
       db.memberByUser user.id = none →
       Members.acceptInvite (some user) now db token =
         .ok (acceptedDB db user inv now, inv.operatorId) ∧
       (acceptedDB db user inv now).inviteByToken token =
         some { inv with usedAt := some now } ∧
       (0 < now →
        ∀ (now2 : Nat) (user2 : User),
          Members.acceptInvite (some user2) now2 (acceptedDB db user inv now) token =
            .error "Invite already used")) := by
  refine ⟨?_, ?_, ?_, ?_, ?_⟩
  · intro now db token user htok
    unfold Members.acceptInvite
    simp only [htok]
  · intro now db token user inv u htok hused hu
    unfold Members.acceptInvite
    simp only [htok]
    have hnum : numTruthy inv.usedAt = true := by
      rw [hused]
      simp [numTruthy]
      omega
    simp [hnum]
  · intro now db token user inv htok hexp
    cases hnum : numTruthy inv.usedAt with
    | true =>
      left
      unfold Members.acceptInvite
      simp only [htok]
      simp [hnum]
    | false =>
      right
      unfold Members.acceptInvite
      simp only [htok]
      simp [hnum, hexp]
  · intro auth now db token user hauth hm
    exact acceptInvite_member_blocks hauth hm
  · intro now db token user inv htok hused hexp hmem
    have hmarked : (acceptedDB db user inv now).inviteByToken token =
        some { inv with usedAt := some now } := by
      unfold acceptedDB
      have htok1 : ({ db with
          members := db.members ++
            [{ id := db.nextId, operatorId := inv.operatorId, userId := user.id,
               role := inv.role.toRole, email := user.email,
               name := nameOrEmail user, createdAt := now }],
          nextId := db.nextId + 1 } : DB).inviteByToken token = some inv := htok
      rw [inviteByToken_patchInvite (fun i => { i with usedAt := some now })
        (fun i => rfl) htok1]
      simp
    refine ⟨?_, hmarked, ?_⟩
    · unfold Members.acceptInvite
      simp only [htok]
      have hnum : numTruthy inv.usedAt = false := by rw [hused]; rfl
      simp [hnum, hexp, hmem]
      rfl
    · intro hnow now2 user2
      unfold Members.acceptInvite
      simp only [hmarked]
      have hnum2 : numTruthy ({ inv with usedAt := some now } : Invite).usedAt = true := by
        simp [numTruthy]
        omega
      simp [hnum2]

end Savari

namespace Savari

/-- Witness for the C7 theorem at concrete inputs: an unknown token, the used
fixture invite, the expired fixture invite, the already-member driver, and a
fresh user accepting the fresh invite followed by a second acceptance attempt. -/
theorem acceptInvite_single_use_witness :
    Members.acceptInvite (some uNew) 100 dbW "tok-none" = .error "Invalid invite" ∧
    Members.acceptInvite (some uNew) 100 dbW "tok-used" = .error "Invite already used" ∧
    (Members.acceptInvite (some uNew) 100 dbW "tok-old" = .error "Invite already used" ∨
     Members.acceptInvite (some uNew) 100 dbW "tok-old" = .error "Invite expired") ∧
    Members.acceptInvite (some uDrv) 150 dbW "tok-fresh" ≠ .ok (dbW, 2) ∧
    Members.acceptInvite (some uNew) 100 dbW "tok-fresh" =
      .ok (acceptedDB dbW uNew invFresh 100, 1) ∧
    (acceptedDB dbW uNew invFresh 100).inviteByToken "tok-fresh" =
      some { invFresh with usedAt := some 100 } ∧
    Members.acceptInvite (some uBiz) 200 (acceptedDB dbW uNew invFresh 100) "tok-fresh" =
      .error "Invite already used" := by
  obtain ⟨h1, h2, h3⟩ := acceptInvite_single_use.2.2.2.2 100 dbW "tok-fresh" uNew invFresh
    rfl rfl (by decide) rfl
  refine ⟨?_, ?_, ?_, ?_, h1, h2, h3 (by decide) 200 uBiz⟩
  · exact acceptInvite_single_use.1 100 dbW "tok-none" uNew (by decide)
  · exact acceptInvite_single_use.2.1 100 dbW "tok-used" uNew invUsed 50 rfl rfl (by decide)
  · exact acceptInvite_single_use.2.2.1 100 dbW "tok-old" uNew invOld rfl (by decide)
  · exact acceptInvite_single_use.2.2.2.1 (some uDrv) 150 dbW "tok-fresh" uDrv rfl
      ⟨mDrv, by decide, rfl⟩ dbW 2

end Savari

namespace Savari

/-- C8: with `includeArchived` absent or false, no passenger whose `archivedAt`
is set (to a real, nonzero clock reading) appears in the returned page; with
`includeArchived` true archived rows may appear — the fixture call returns the
archived passenger Bob. -/
theorem list_filters_archived :
    (∀ (auth : Option User) (db : DB) (operatorId : Nat)
       (opts : Passengers.PaginationOpts) (includeArchived : Option Bool)
       (result : Passengers.PassengerPage),
       (∀ p ∈ db.passengers, p.archivedAt ≠ some 0) →
       includeArchived ≠ some true →
       Passengers.list auth db operatorId opts includeArchived = .ok result →
       ∀ p ∈ result.page, p.archivedAt = none) ∧
    Passengers.list (some uOp) dbW 1 ⟨none, 10⟩ (some true) =
      .ok ⟨[pAlice, pBob], true, 10⟩ := by
  constructor
  · intro auth db operatorId opts includeArchived result hpos hinc hres
    unfold Passengers.list at hres
    cases hm : requireMembership auth db operatorId with
    | error e => rw [hm] at hres; exact Except.noConfusion hres
    | ok um =>
      obtain ⟨user, membership⟩ := um
      rw [hm] at hres
      have hincb : includeArchived.getD false = false := by
        cases includeArchived with
        | none => rfl
        | some b =>
          cases b with
          | false => rfl
          | true => exact absurd rfl hinc
      simp only [hincb, Bool.false_eq_true, if_false, Except.ok.injEq] at hres
      subst hres
      intro p hp
      simp only [List.mem_filter] at hp
      obtain ⟨hp1, hp2⟩ := hp
      have hmem : p ∈ db.passengers := by
        unfold Passengers.paginate at hp1
        have hind := List.mem_of_mem_drop (List.mem_of_mem_take hp1)
        by_cases hrole : membership.role = Role.business
        · rw [if_pos hrole] at hind
          exact (List.mem_filter.mp hind).1
        · rw [if_neg hrole] at hind
          exact (List.mem_filter.mp hind).1
      cases harch : p.archivedAt with
      | none => rfl
      | some t =>
        rw [harch] at hp2
        simp only [numTruthy, Bool.not_eq_true'] at hp2
        have ht : t = 0 := by simpa using hp2
        subst ht
        exact absurd harch (hpos p hmem)
  · decide

/-- Witness for the C8 theorem at concrete inputs: the fixture store holds
passengers Alice (unarchived) and Bob (archived at 20); a default listing by
the operator member returns only Alice. -/
theorem list_filters_archived_witness :
    (∀ p ∈ dbW.passengers, p.archivedAt ≠ some 0) ∧
    Passengers.list (some uOp) dbW 1 ⟨none, 10⟩ none = .ok ⟨[pAlice], true, 10⟩ ∧
    (∀ p ∈ (Passengers.PassengerPage.mk [pAlice] true 10).page, p.archivedAt = none) := by
  refine ⟨by decide, by decide, ?_⟩
  exact list_filters_archived.1 (some uOp) dbW 1 ⟨none, 10⟩ none ⟨[pAlice], true, 10⟩
    (by decide) (by decide) (by decide)

end Savari

namespace Savari

/-- C9: `getByQrCode` consults no caller identity at all — any two callers
(including none) get the same answer — it never returns an error, and it
returns exactly the first passenger row bearing the QR code (`none` when no
row bears it), with no operator or tenant restriction. -/
theorem getByQrCode_no_auth_or_tenant_check :
    ∀ (auth auth2 : Option User) (db : DB) (qrCode : String),
      Passengers.getByQrCode auth db qrCode = .ok (db.passengerByQr qrCode) ∧
      Passengers.getByQrCode auth db qrCode = Passengers.getByQrCode auth2 db qrCode ∧
      (db.passengerByQr qrCode = none ↔ ∀ p ∈ db.passengers, p.qrCode ≠ qrCode) ∧
      (∀ p : Passenger, db.passengerByQr qrCode = some p →
         p ∈ db.passengers ∧ p.qrCode = qrCode) := by
  intro auth auth2 db qrCode
  refine ⟨rfl, rfl, ?_, ?_⟩
  · unfold DB.passengerByQr
    rw [List.find?_eq_none]
    constructor
    · intro h p hp
      have := h p hp
      simpa using this
    · intro h p hp
      simpa using h p hp
  · intro p hp
    exact ⟨List.mem_of_find?_eq_some hp, by simpa using List.find?_some hp⟩

/-- Witness for the C9 theorem at concrete inputs: an unauthenticated caller and
the fixture driver get the same passenger for Alice's QR code, and an operator
of a different tenant would too, the lookup being tenant-blind. -/
theorem getByQrCode_no_auth_or_tenant_check_witness :
    Passengers.getByQrCode none dbW "SAVARI-alice1234" =
      .ok (dbW.passengerByQr "SAVARI-alice1234") ∧
    Passengers.getByQrCode none dbW "SAVARI-alice1234" =
      Passengers.getByQrCode (some uDrv) dbW "SAVARI-alice1234" ∧
    (dbW.passengerByQr "SAVARI-alice1234" = some pAlice → pAlice ∈ dbW.passengers ∧
       pAlice.qrCode = "SAVARI-alice1234") :=
  ⟨(getByQrCode_no_auth_or_tenant_check none (some uDrv) dbW "SAVARI-alice1234").1,
   (getByQrCode_no_auth_or_tenant_check none (some uDrv) dbW "SAVARI-alice1234").2.1,
   (getByQrCode_no_auth_or_tenant_check none (some uDrv) dbW "SAVARI-alice1234").2.2.2
     pAlice⟩

/-- A guard that only reads `members` gives the same answer on a store with the
same `members` table: `requireDriverRole`. -/
theorem requireDriverRole_members_eq {auth : Option User} {db db' : DB}
    (h : db'.members = db.members) :
    requireDriverRole auth db' = requireDriverRole auth db := by
  unfold requireDriverRole DB.memberByUser
  cases auth <;> simp [h]

/-- A family of stores differing from `db` only in one passenger's `archivedAt`
field, used to state that `scanPassenger` is blind to archival. -/
def DB.setPassengerArchived (db : DB) (id : Nat) (a : Option Nat) : DB :=
  { db with
      passengers :=
        db.passengers.map (fun p => if p.id = id then { p with archivedAt := a } else p) }

/-- Rewriting one passenger's `archivedAt` does not change which passenger a QR
lookup finds, beyond that field. -/
theorem passengerByQr_setArchived {db : DB} {qr : String} {p : Passenger}
    {a : Option Nat} (h : db.passengerByQr qr = some p) :
    (db.setPassengerArchived p.id a).passengerByQr qr =
      some { p with archivedAt := a } := by
  simp only [DB.passengerByQr] at h ⊢
  simp only [DB.setPassengerArchived]
  simp only [List.find?_map]
  have hpred : ((fun q : Passenger => q.qrCode == qr) ∘
      (fun q => if q.id = p.id then { q with archivedAt := a } else q)) =
      (fun q : Passenger => q.qrCode == qr) := by
    funext q
    by_cases h' : q.id = p.id <;> simp [h']
  rw [hpred, h]
  simp

/-- C10: `scanPassenger` never consults `archivedAt`: with the usual
preconditions met, and the matched passenger's `archivedAt` rewritten to any
value whatsoever (archived or not), the call returns the same status —
`already_scanned` without a write when the pair already has a scan, `success`
with exactly one inserted scan otherwise — carrying the passenger record. -/
theorem scanPassenger_ignores_archived :
    ∀ (auth : Option User) (now : Nat) (db : DB) (tripSessionId : Nat) (qrCode : String)
      (user : User) (membership : Member) (trip : TripSession) (p : Passenger)
      (a : Option Nat),
      requireDriverRole auth db = .ok (user, membership) →
      db.getTrip tripSessionId = some trip →
      trip.driverId = user.id → trip.status = TripStatus.active →
      db.passengerByQr qrCode = some p →
      p.operatorId = membership.operatorId →
      (∀ s : Scan, db.scanByTripPassenger tripSessionId p.id = some s →
         Trips.scanPassenger auth now (db.setPassengerArchived p.id a)
             tripSessionId qrCode =
           .ok (db.setPassengerArchived p.id a,
                ⟨{ p with archivedAt := a }, Trips.ScanStatus.already_scanned⟩)) ∧
      (db.scanByTripPassenger tripSessionId p.id = none →
         Trips.scanPassenger auth now (db.setPassengerArchived p.id a)
             tripSessionId qrCode =
           .ok ({ db.setPassengerArchived p.id a with
                   scans := db.scans ++
                     [{ id := db.nextId, operatorId := membership.operatorId,
                        tripSessionId := tripSessionId, passengerId := p.id,
                        scannedAt := now, scannedBy := user.id }],
                   nextId := db.nextId + 1 },
                ⟨{ p with archivedAt := a }, Trips.ScanStatus.success⟩)) := by
  intro auth now db tripSessionId qrCode user membership trip p a hreq htrip htd hts hqr hop
  have hreq' : requireDriverRole auth (db.setPassengerArchived p.id a) =
      .ok (user, membership) := by
    rw [@requireDriverRole_members_eq auth db (db.setPassengerArchived p.id a) rfl]
    exact hreq
  have htrip' : (db.setPassengerArchived p.id a).getTrip tripSessionId = some trip := htrip
  have hqr' : (db.setPassengerArchived p.id a).passengerByQr qrCode =
      some { p with archivedAt := a } := passengerByQr_setArchived hqr
  constructor
  · intro s hdup
    have hdup' : (db.setPassengerArchived p.id a).scanByTripPassenger tripSessionId
        ({ p with archivedAt := a } : Passenger).id = some s := hdup
    unfold Trips.scanPassenger
    simp only [hreq', htrip', hqr']
    rw [hdup']
    simp [htd, hts, hop]
  · intro hdup
    have hdup' : (db.setPassengerArchived p.id a).scanByTripPassenger tripSessionId
        ({ p with archivedAt := a } : Passenger).id = none := hdup
    unfold Trips.scanPassenger
    simp only [hreq', htrip', hqr']
    rw [hdup']
    simp only [DB.setPassengerArchived]
    simp [htd, hts, hop]

/-- Witness for the C10 theorem at concrete inputs: Alice with `archivedAt`
rewritten to 777 still gets `already_scanned`, and Bob (kept archived at 888)
still gets `success` with one inserted scan. -/
theorem scanPassenger_ignores_archived_witness :
    Trips.scanPassenger (some uDrv) 90 (dbW.setPassengerArchived 6 (some 777)) 8
        "SAVARI-alice1234" =
      .ok (dbW.setPassengerArchived 6 (some 777),
           ⟨{ pAlice with archivedAt := some 777 },
            Trips.ScanStatus.already_scanned⟩) ∧
    Trips.scanPassenger (some uDrv) 90 (dbW.setPassengerArchived 7 (some 888)) 8
        "SAVARI-bob12345" =
      .ok ({ dbW.setPassengerArchived 7 (some 888) with
              scans := dbW.scans ++
                [{ id := 100, operatorId := 1, tripSessionId := 8, passengerId := 7,
                   scannedAt := 90, scannedBy := "u-drv" }],
              nextId := 101 },
           ⟨{ pBob with archivedAt := some 888 }, Trips.ScanStatus.success⟩) := by
  constructor
  · exact (scanPassenger_ignores_archived (some uDrv) 90 dbW 8 "SAVARI-alice1234"
      uDrv mDrv tripActive pAlice (some 777) rfl rfl (by decide) (by decide) rfl
      (by decide)).1 scanAlice rfl
  · exact (scanPassenger_ignores_archived (some uDrv) 90 dbW 8 "SAVARI-bob12345"
      uDrv mDrv tripActive pBob (some 888) rfl rfl (by decide) (by decide) rfl
      (by decide)).2 rfl

end Savari
